import Mathlib

set_option maxRecDepth 8000

/-!
Shallow embedding of `src/app.py` (PPTX generator for PLA results): the
Record Extractor, Paginator (both inside `process_files`, lines 76-176),
the Layout Engine (`slide_maker`, lines 262-380) and the Deck Builder
(`generate_pptxs`, lines 182-256).  File-system, ZIP, pandas-I/O and
python-pptx mutation are external collaborators; what is embedded is the
data transformation they drive: rows to records, records to pages, pages
to placement instructions.
-/

/-! ### Python string primitives

`str.replace` and `int(...)` are modelled directly on `List Char` so that
every definition evaluates by kernel reduction. -/

/-- Python `str.replace(pat, rep)` on character lists: scan left to right,
replace every non-overlapping occurrence of `pat`.  The fuel argument is
only there to make the recursion structural; `fuel = length of the string`
suffices because each step consumes at least one character when `pat` is
non-empty. -/
def replaceFuel : Nat → List Char → List Char → List Char → List Char
  | 0, s, _, _ => s
  | _ + 1, [], _, _ => []
  | fuel + 1, c :: rest, pat, rep =>
    if !pat.isEmpty && pat.isPrefixOf (c :: rest) then
      rep ++ replaceFuel fuel ((c :: rest).drop pat.length) pat rep
    else
      c :: replaceFuel fuel rest pat rep

/-- Python `s.replace(pat, rep)` (all occurrences, literal pattern). -/
def pyReplace (s pat rep : String) : String :=
  ⟨replaceFuel s.data.length s.data pat.data rep.data⟩

/-- Value of a decimal digit character, `none` if not a digit. -/
def digitVal (c : Char) : Option Nat :=
  if c.isDigit then some (c.toNat - 48) else none

/-- Parse a non-empty all-digit character list as a natural number. -/
def digitsToNat? : List Char → Option Nat
  | [] => none
  | cs => cs.foldl
      (fun acc c =>
        match acc, digitVal c with
        | some a, some d => some (a * 10 + d)
        | _, _ => none)
      (some 0)

/-- Python `int(s)` for plain decimal literals with an optional leading
minus sign (the only shapes the app feeds it). -/
def pyInt? (s : String) : Option Int :=
  match s.data with
  | '-' :: rest => (digitsToNat? rest).map (fun n => -(n : Int))
  | cs => (digitsToNat? cs).map (fun n => (n : Int))

/-- Python `str(x)` for an optional int; `str(None)` is `"None"`. -/
def pyStrOptInt : Option Int → String
  | some n => toString n
  | none => "None"

/-! ### Data model -/

/-- One row of a condition's `Results.csv` as read by `process_files`
(src/app.py:107-121).  The two particle-count columns are modelled as
already numeric: the `apply(int)` at lines 114-117 is then the identity
and its possible failure is outside every claim. -/
structure Row where
  Image_used : String
  Cell_quantified : String
  Particle_count_threshold : Int
  Particle_count_maxima : Int
deriving Repr, DecidableEq

/-- A row after the column cleanup of src/app.py:110-113: `MAX_`/`.tif`
stripped from the image name, `_1.roi` stripped from the ROI name and the
remainder coerced to an integer. -/
structure CleanRow where
  Image_used : String
  Cell_quantified : Int
  Particle_count_threshold : Int
  Particle_count_maxima : Int
deriving Repr, DecidableEq

/-- The `T_and_FM` radio selection: `"Both"`, `"Thresholding only"` or
`"Find Maxima only"` (src/app.py:399-401). -/
inductive TandFM where
  | Both
  | Thresholding_only
  | Find_Maxima_only
deriving Repr, DecidableEq

/-- `T_and_FM == "Both" or T_and_FM == "Thresholding only"`. -/
def tActive (v : TandFM) : Bool :=
  v == .Both || v == .Thresholding_only

/-- `T_and_FM == "Both" or T_and_FM == "Find Maxima only"`. -/
def fmActive (v : TandFM) : Bool :=
  v == .Both || v == .Find_Maxima_only

/-- One experimental condition: its display name (`csv_root_folder`), the
path of its csv file (`condition_info[1]`) and the rows of that file. -/
structure Condition where
  name : String
  csvPath : String
  rows : List Row
deriving Repr, DecidableEq

/-- Column cleanup for one row (src/app.py:110-113).  A ROI identifier
that does not coerce to an integer is a hard extraction error. -/
def cleanRow (r : Row) : Except String CleanRow :=
  match pyInt? (pyReplace r.Cell_quantified "_1.roi" "") with
  | some n =>
      .ok { Image_used := pyReplace (pyReplace r.Image_used "MAX_" "") ".tif" ""
            Cell_quantified := n
            Particle_count_threshold := r.Particle_count_threshold
            Particle_count_maxima := r.Particle_count_maxima }
  | none => .error "ValueError: invalid literal for int"

/-- Error-propagating map, the shape of every row/page loop in the app:
stop at the first raised exception. -/
def mapExcept {α β : Type} (f : α → Except String β) : List α → Except String (List β)
  | [] => .ok []
  | x :: xs => do
    let y ← f x
    let ys ← mapExcept f xs
    return y :: ys

/-- Cleanup of the whole table. -/
def cleanTable (rows : List Row) : Except String (List CleanRow) :=
  mapExcept cleanRow rows

/-- Python string comparison on character lists: lexicographic by code
point. -/
def charListLt : List Char → List Char → Bool
  | [], [] => false
  | [], _ :: _ => true
  | _ :: _, [] => false
  | a :: as, b :: bs =>
    if a.toNat < b.toNat then true
    else if b.toNat < a.toNat then false
    else charListLt as bs

/-- Python `a < b` on strings. -/
def strLt (a b : String) : Bool := charListLt a.data b.data

/-- The sort key of `sort_values(by=["Image used", "Cell quantified"])`
(src/app.py:118): image name lexicographically, then the ROI identifier
numerically. -/
def rowLe (a b : CleanRow) : Prop :=
  strLt a.Image_used b.Image_used = true ∨
    (a.Image_used = b.Image_used ∧ a.Cell_quantified ≤ b.Cell_quantified)

instance : DecidableRel rowLe := fun a b =>
  inferInstanceAs (Decidable (strLt a.Image_used b.Image_used = true ∨
    (a.Image_used = b.Image_used ∧ a.Cell_quantified ≤ b.Cell_quantified)))

/-- `results_table.sort_values(by=["Image used", "Cell quantified"])`,
modelled as a sort by the key order `rowLe` (the source does not fix the
relative order of fully tied rows). -/
def sortTable (rows : List CleanRow) : List CleanRow :=
  List.insertionSort rowLe rows

/-- The per-cell record appended to `all_info_for_slides`
(src/app.py:121-147), with the source's tuple slots as named fields:
`[ROI_title, ROI_subtitle, ROI_Fluorescence_image, ROI_name,
ROI_Tcount_image, ROI_Tcount, ROI_FMcount_image, ROI_FMcount]`. -/
structure Record where
  ROI_title : String
  ROI_subtitle : String
  ROI_Fluorescence_image : String
  ROI_name : String
  ROI_Tcount_image : Option String
  ROI_Tcount : Option Int
  ROI_FMcount_image : Option String
  ROI_FMcount : Option Int
deriving Repr, DecidableEq

/-- Build the record for one (cleaned, sorted) row (src/app.py:123-147).
Paths use the posix separator of the deployment platform. -/
def makeRecord (T_and_FM : TandFM) (cond : Condition) (row : CleanRow) : Record :=
  let ROI_title := cond.name
  let ROI_subtitle := row.Image_used
  let ROI_name := toString row.Cell_quantified
  let ROI_Fluorescence_image :=
    pyReplace cond.csvPath "Quantification/Results.csv"
      ("Cropped cells/Fluorescence/" ++ ROI_subtitle ++ "/" ++ ROI_name ++ "_2.jpg")
  match T_and_FM with
  | .Thresholding_only =>
      { ROI_title, ROI_subtitle, ROI_Fluorescence_image, ROI_name
        ROI_Tcount_image := some (pyReplace
          (pyReplace ROI_Fluorescence_image "Fluorescence" "T_Particles") "_2.jpg" "_1.jpg")
        ROI_Tcount := some row.Particle_count_threshold
        ROI_FMcount_image := none
        ROI_FMcount := none }
  | .Find_Maxima_only =>
      { ROI_title, ROI_subtitle, ROI_Fluorescence_image, ROI_name
        ROI_Tcount_image := none
        ROI_Tcount := none
        ROI_FMcount_image := some (pyReplace
          (pyReplace ROI_Fluorescence_image "Fluorescence" "FM_Particles") "_2.jpg" "_1.jpg")
        ROI_FMcount := some row.Particle_count_maxima }
  | .Both =>
      { ROI_title, ROI_subtitle, ROI_Fluorescence_image, ROI_name
        ROI_Tcount_image := some (pyReplace
          (pyReplace ROI_Fluorescence_image "Fluorescence" "T_Particles") "_2.jpg" "_1.jpg")
        ROI_Tcount := some row.Particle_count_threshold
        ROI_FMcount_image := some (pyReplace
          (pyReplace ROI_Fluorescence_image "Fluorescence" "FM_Particles") "_2.jpg" "_1.jpg")
        ROI_FMcount := some row.Particle_count_maxima }

/-- The records one condition contributes to `all_info_for_slides`:
clean the table, sort it, then build one record per row in sorted order
(src/app.py:107-147). -/
def extractCondition (v : TandFM) (cond : Condition) : Except String (List Record) := do
  let cleaned ← cleanTable cond.rows
  return (sortTable cleaned).map (makeRecord v cond)

/-- `all_info_for_slides`: the concatenation of every condition's records,
conditions in discovery order (src/app.py:100-147). -/
def extract_all (v : TandFM) (conds : List Condition) : Except String (List Record) := do
  let lists ← mapExcept (extractCondition v) conds
  return lists.flatten

/-! ### Paginator -/

/-- The loop state of the pagination loop (src/app.py:150-155):
the finished pages, the accumulator, and the reference title/subtitle. -/
structure PagState where
  all_slides_content : List (List Record)
  temp_slide : List Record
  current_title : String
  current_subtitle : String
deriving Repr, DecidableEq

/-- One iteration of the loop at src/app.py:158-174: if the accumulator
holds 20 records, or the title changed, or the subtitle changed, dump the
accumulator as a page and reset the references; then always append the
incoming record to the accumulator. -/
def paginateStep (st : PagState) (info : Record) : PagState :=
  if st.temp_slide.length == 20 || info.ROI_title != st.current_title
      || info.ROI_subtitle != st.current_subtitle then
    { all_slides_content := st.all_slides_content ++ [st.temp_slide]
      temp_slide := [info]
      current_title := info.ROI_title
      current_subtitle := info.ROI_subtitle }
  else
    { st with temp_slide := st.temp_slide ++ [info] }

/-- The whole pagination pass (src/app.py:150-176).  Empty input raises
`IndexError` at `all_info_for_slides[0][0]` (line 154).  Note that the
source returns `all_slides_content` directly after the loop (line 176):
whatever is left in `temp_slide` is not appended. -/
def paginate (all_info_for_slides : List Record) : Except String (List (List Record)) :=
  match all_info_for_slides with
  | [] => .error "IndexError: list index out of range"
  | info0 :: _ =>
    .ok ((all_info_for_slides.foldl paginateStep
      { all_slides_content := []
        temp_slide := []
        current_title := info0.ROI_title
        current_subtitle := info0.ROI_subtitle }).all_slides_content)

/-- `process_files` (src/app.py:76-176): extraction followed by
pagination. -/
def process_files (v : TandFM) (conds : List Condition) : Except String (List (List Record)) := do
  let all_info_for_slides ← extract_all v conds
  paginate all_info_for_slides

/-! ### Layout Engine

All geometry constants are in hundredths of a centimeter: every literal in
`slide_maker` (src/app.py:267-297) has at most two decimals, so this is an
exact integer rescaling of the source's centimeter values. -/

def title_width : Nat := 1700
def title_height : Nat := 150
def title_left_coordinate : Nat := 0
def title_top_coordinate : Nat := 0

def subtitle_width : Nat := 1700
def subtitle_height : Nat := 150
def subtitle_left_coordinate : Nat := 1700
def subtitle_top_coordinate : Nat := 0

def image_width : Nat := 325
def image_height : Nat := 300

/-- The 20 slot tuples `(primary-left, primary-top, secondary-left,
secondary-top)` of `image_coordinates` (src/app.py:282-287). -/
def image_coordinates : List (Nat × Nat × Nat × Nat) :=
  [(25, 210, 350, 210), (700, 210, 1025, 210), (1375, 210, 1700, 210),
   (2050, 210, 2375, 210), (2725, 210, 3050, 210),
   (25, 640, 350, 640), (700, 640, 1025, 640), (1375, 640, 1700, 640),
   (2050, 640, 2375, 640), (2725, 640, 3050, 640),
   (25, 1070, 350, 1070), (700, 1070, 1025, 1070), (1375, 1070, 1700, 1070),
   (2050, 1070, 2375, 1070), (2725, 1070, 3050, 1070),
   (25, 1500, 350, 1500), (700, 1500, 1025, 1500), (1375, 1500, 1700, 1500),
   (2050, 1500, 2375, 1500), (2725, 1500, 3050, 1500)]

def image_labels_width : Nat := 325
def image_labels_height : Nat := 100

/-- The 20 label tuples of `image_labels_coordinates`
(src/app.py:292-297). -/
def image_labels_coordinates : List (Nat × Nat × Nat × Nat) :=
  [(25, 510, 350, 510), (700, 510, 1025, 510), (1375, 510, 1700, 510),
   (2050, 510, 2375, 510), (2725, 510, 3050, 510),
   (25, 940, 350, 940), (700, 940, 1025, 940), (1375, 940, 1700, 940),
   (2050, 940, 2375, 940), (2725, 940, 3050, 940),
   (25, 1370, 350, 1370), (700, 1370, 1025, 1370), (1375, 1370, 1700, 1370),
   (2050, 1370, 2375, 1370), (2725, 1370, 3050, 1370),
   (25, 1800, 350, 1800), (700, 1800, 1025, 1800), (1375, 1800, 1700, 1800),
   (2050, 1800, 2375, 1800), (2725, 1800, 3050, 1800)]

/-- Resolved position and size of one visual element. -/
structure Geom where
  left : Nat
  top : Nat
  width : Nat
  height : Nat
deriving Repr, DecidableEq

/-- The four placements produced per slot index by the loop at
src/app.py:331-378: primary image, its name label, secondary (particle)
image, and its count label. -/
structure SlotPlacements where
  fluorGeom : Geom
  fluorImage : String
  fluorLabelGeom : Geom
  fluorLabelText : String
  particleGeom : Geom
  particleImage : Option String
  particleLabelGeom : Geom
  particleLabelText : String
deriving Repr, DecidableEq

/-- Build the four placements of slot `i` from its coordinate tuples and
content; the count label text is `"P=" + str(count)` (src/app.py:376). -/
def mkSlot (c lc : Nat × Nat × Nat × Nat) (fimg : String) (pimg : Option String)
    (flbl : String) (plbl : Option Int) : SlotPlacements :=
  { fluorGeom := ⟨c.1, c.2.1, image_width, image_height⟩
    fluorImage := fimg
    fluorLabelGeom := ⟨lc.1, lc.2.1, image_labels_width, image_labels_height⟩
    fluorLabelText := flbl
    particleGeom := ⟨c.2.2.1, c.2.2.2, image_width, image_height⟩
    particleImage := pimg
    particleLabelGeom := ⟨lc.2.2.1, lc.2.2.2, image_labels_width, image_labels_height⟩
    particleLabelText := "P=" ++ pyStrOptInt plbl }

/-- Python list indexing: `l[i]` raises `IndexError` past the end. -/
def getOrErr {α : Type} (l : List α) (i : Nat) : Except String α :=
  match l[i]? with
  | some x => .ok x
  | none => .error "IndexError: list index out of range"

/-- One pass of the slot loop body (src/app.py:331-378) for index `i`. -/
def buildSlot (F_images_for_slide : List String) (P_images_for_slide : List (Option String))
    (F_images_labels : List String) (P_images_labels : List (Option Int))
    (i : Nat) : Except String SlotPlacements := do
  let c ← getOrErr image_coordinates i
  let lc ← getOrErr image_labels_coordinates i
  let fimg ← getOrErr F_images_for_slide i
  let pimg ← getOrErr P_images_for_slide i
  let flbl ← getOrErr F_images_labels i
  let plbl ← getOrErr P_images_labels i
  return mkSlot c lc fimg pimg flbl plbl

/-- One slide-equivalent unit: title and subtitle text boxes at their
fixed positions plus the per-slot placements. -/
structure Slide where
  titleGeom : Geom
  titleText : String
  subtitleGeom : Geom
  subtitleText : String
  slots : List SlotPlacements
deriving Repr, DecidableEq

/-- `slide_maker` (src/app.py:262-380) minus the python-pptx mutation:
the placements it resolves for one slide.  The python signature order is
kept (title, subtitle, count, primary images, secondary images, primary
labels, secondary labels); the `presentation_input` parameter is the
external document collaborator and is dropped. -/
def slide_maker (current_slide_title current_slide_subtitle : String)
    (image_count_for_slide : Nat)
    (F_images_for_slide : List String) (P_images_for_slide : List (Option String))
    (F_images_labels : List String) (P_images_labels : List (Option Int)) :
    Except String Slide := do
  let slots ← mapExcept
    (buildSlot F_images_for_slide P_images_for_slide F_images_labels P_images_labels)
    (List.range image_count_for_slide)
  return { titleGeom := ⟨title_left_coordinate, title_top_coordinate, title_width, title_height⟩
           titleText := current_slide_title
           subtitleGeom := ⟨subtitle_left_coordinate, subtitle_top_coordinate, subtitle_width, subtitle_height⟩
           subtitleText := current_slide_subtitle
           slots := slots }

/-- The geometry of one slot's four placements, in placement order. -/
def slotGeoms (s : SlotPlacements) : List Geom :=
  [s.fluorGeom, s.fluorLabelGeom, s.particleGeom, s.particleLabelGeom]

/-- The full resolved geometry of a slide, in placement order. -/
def slideGeometry (sl : Slide) : List Geom :=
  sl.titleGeom :: sl.subtitleGeom :: (sl.slots.map slotGeoms).flatten

/-! ### Deck Builder -/

/-- The two independent output passes of `generate_pptxs`: the
`Summary_results_T.pptx` pass and the `Summary_results_FM.pptx` pass. -/
inductive Approach where
  | Thresholding
  | Find_Maxima
deriving Repr, DecidableEq

/-- Which record field each pass feeds to `slide_maker` as the secondary
image (tuple slot 4 for T, slot 6 for FM). -/
def imgSel : Approach → Record → Option String
  | .Thresholding => Record.ROI_Tcount_image
  | .Find_Maxima => Record.ROI_FMcount_image

/-- Which record field each pass feeds as the secondary label content
(tuple slot 5 for T, slot 7 for FM). -/
def cntSel : Approach → Record → Option Int
  | .Thresholding => Record.ROI_Tcount
  | .Find_Maxima => Record.ROI_FMcount

/-- Whether the selector activates a pass. -/
def activeOf : Approach → TandFM → Bool
  | .Thresholding, v => tActive v
  | .Find_Maxima, v => fmActive v

/-- One generated presentation: which pass produced it and its slides. -/
structure Deck where
  variant : Approach
  slides : List Slide
deriving Repr, DecidableEq

/-- The per-page preparation and `slide_maker` call of each pass
(src/app.py:201-214 and 236-249): the slide title and subtitle come from
the page's first record, the counts and lists from the whole page. -/
def pageToSlide (selImg : Record → Option String) (selCnt : Record → Option Int)
    (slide_content : List Record) : Except String Slide :=
  match slide_content with
  | [] => .error "IndexError: list index out of range"
  | first :: _ =>
    slide_maker first.ROI_title first.ROI_subtitle slide_content.length
      (slide_content.map Record.ROI_Fluorescence_image)
      (slide_content.map selImg)
      (slide_content.map Record.ROI_name)
      (slide_content.map selCnt)

/-- `generate_pptxs` (src/app.py:182-256): one deck per active approach,
each a pass over the same page sequence. -/
def generate_pptxs (T_and_FM : TandFM) (all_slides_content : List (List Record)) :
    Except String (List Deck) := do
  let tdecks ←
    if tActive T_and_FM then do
      let slides ← mapExcept
        (pageToSlide Record.ROI_Tcount_image Record.ROI_Tcount) all_slides_content
      Except.ok [{ variant := .Thresholding, slides := slides }]
    else Except.ok []
  let fmdecks ←
    if fmActive T_and_FM then do
      let slides ← mapExcept
        (pageToSlide Record.ROI_FMcount_image Record.ROI_FMcount) all_slides_content
      Except.ok [{ variant := .Find_Maxima, slides := slides }]
    else Except.ok []
  return tdecks ++ fmdecks

/-! ### Concrete sample inputs used by witnesses and counterexamples -/

/-- A raw csv row as the quantification script writes it. -/
def row9 : Row :=
  { Image_used := "MAX_Row_01_05.tif"
    Cell_quantified := "9_1.roi"
    Particle_count_threshold := 4
    Particle_count_maxima := 6 }

/-- A second raw row of the same image, ROI 10. -/
def row10 : Row :=
  { Image_used := "MAX_Row_01_05.tif"
    Cell_quantified := "10_1.roi"
    Particle_count_threshold := 3
    Particle_count_maxima := 5 }

/-- A sample condition whose csv lists ROI 10 before ROI 9. -/
def cond0 : Condition :=
  { name := "ConditionA"
    csvPath := "Data/ConditionA/Quantification/Results.csv"
    rows := [row10, row9] }

/-- The cleaned form of `row9`. -/
def crow9 : CleanRow :=
  { Image_used := "Row_01_05", Cell_quantified := 9
    Particle_count_threshold := 4, Particle_count_maxima := 6 }

/-- The cleaned form of `row10`. -/
def crow10 : CleanRow :=
  { Image_used := "Row_01_05", Cell_quantified := 10
    Particle_count_threshold := 3, Particle_count_maxima := 5 }

/-- A cleaned row of a second source image (different subtitle). -/
def crowB : CleanRow :=
  { Image_used := "Row_06_10", Cell_quantified := 1
    Particle_count_threshold := 2, Particle_count_maxima := 2 }

/-- A concrete extracted record (title A, subtitle `Row_01_05`). -/
def recA : Record := makeRecord .Both cond0 crow9

/-- A second record of the same group. -/
def recA10 : Record := makeRecord .Both cond0 crow10

/-- A record of the same title but a different subtitle. -/
def recB : Record := makeRecord .Both cond0 crowB

/-- The records `extractCondition` produces from `cond0`. -/
def recs0 : List Record := [recA, recA10]

/-! ### Basic lemmas about the error-propagating combinators -/

lemma except_bind_ok {α β : Type} {a : Except String α} {f : α → Except String β} {y : β}
    (h : (a >>= f) = .ok y) : ∃ x, a = .ok x ∧ f x = .ok y := by
  cases a with
  | error e => simp [Bind.bind, Except.bind] at h
  | ok x => exact ⟨x, rfl, h⟩

lemma mapExcept_ok_forall₂ {α β : Type} (f : α → Except String β) :
    ∀ (l : List α) (ys : List β), mapExcept f l = .ok ys →
      List.Forall₂ (fun x y => f x = .ok y) l ys := by
  intro l
  induction l with
  | nil =>
    intro ys h
    simp only [mapExcept, Except.ok.injEq] at h
    subst h
    exact List.Forall₂.nil
  | cons x xs ih =>
    intro ys h
    simp only [mapExcept] at h
    obtain ⟨y, hy, h2⟩ := except_bind_ok h
    obtain ⟨ys2, hys2, h3⟩ := except_bind_ok h2
    have hcons : y :: ys2 = ys := by
      simpa [Pure.pure, Except.pure] using h3
    subst hcons
    exact List.Forall₂.cons hy (ih _ hys2)

lemma forall₂_mem_imp {α β : Type} {R S : α → β → Prop} :
    ∀ {l1 : List α} {l2 : List β}, List.Forall₂ R l1 l2 →
      (∀ a ∈ l1, ∀ b, R a b → S a b) → List.Forall₂ S l1 l2 := by
  intro l1 l2 h
  induction h with
  | nil => intro _; exact List.Forall₂.nil
  | cons hr _ ih =>
    intro hmem
    exact List.Forall₂.cons (hmem _ (by simp) _ hr)
      (ih fun a ha b hr2 => hmem a (by simp [ha]) b hr2)

lemma forall₂_mem_right {α β : Type} {R : α → β → Prop} :
    ∀ {l1 : List α} {l2 : List β}, List.Forall₂ R l1 l2 → ∀ b ∈ l2, ∃ a ∈ l1, R a b := by
  intro l1 l2 h
  induction h with
  | nil => intro b hb; simp at hb
  | cons hr _ ih =>
    intro b hb
    rcases List.mem_cons.mp hb with rfl | hb2
    · exact ⟨_, by simp, hr⟩
    · obtain ⟨a, ha, hra⟩ := ih b hb2
      exact ⟨a, by simp [ha], hra⟩

/-! ### Invariants of the pagination loop -/

/-- All records of a page agree on title and subtitle. -/
def Homog (p : List Record) : Prop :=
  ∀ r1 ∈ p, ∀ r2 ∈ p, r1.ROI_title = r2.ROI_title ∧ r1.ROI_subtitle = r2.ROI_subtitle

/-- Every emitted page is non-empty, within capacity, and homogeneous. -/
def GoodPages (ps : List (List Record)) : Prop :=
  ∀ p ∈ ps, p ≠ [] ∧ p.length ≤ 20 ∧ Homog p

/-- Loop invariant of the pagination loop after the first iteration. -/
def GoodState (st : PagState) : Prop :=
  GoodPages st.all_slides_content ∧ st.temp_slide ≠ [] ∧ st.temp_slide.length ≤ 20 ∧
    ∀ r ∈ st.temp_slide,
      r.ROI_title = st.current_title ∧ r.ROI_subtitle = st.current_subtitle

lemma paginateStep_good (info : Record) {st : PagState} (h : GoodState st) :
    GoodState (paginateStep st info) ∧
      (paginateStep st info).all_slides_content.flatten ++ (paginateStep st info).temp_slide
        = st.all_slides_content.flatten ++ st.temp_slide ++ [info] := by
  obtain ⟨hpages, hne, hlen, hmatch⟩ := h
  unfold paginateStep
  split
  case isTrue hcond =>
    refine ⟨⟨?_, by simp, by simp, by simp⟩, by simp⟩
    intro p hp
    rcases List.mem_append.mp hp with hp1 | hp2
    · exact hpages p hp1
    · have hpt : p = st.temp_slide := by simpa using hp2
      subst hpt
      refine ⟨hne, hlen, fun r1 h1 r2 h2 => ?_⟩
      obtain ⟨e1, e2⟩ := hmatch r1 h1
      obtain ⟨e3, e4⟩ := hmatch r2 h2
      exact ⟨e1.trans e3.symm, e2.trans e4.symm⟩
  case isFalse hcond =>
    have hlen20 : st.temp_slide.length ≠ 20 := by
      intro hEq
      exact hcond (by simp [hEq])
    have htitle : info.ROI_title = st.current_title := by
      by_contra hne2
      exact hcond (by simp [bne_iff_ne, hne2])
    have hsub : info.ROI_subtitle = st.current_subtitle := by
      by_contra hne2
      exact hcond (by simp [bne_iff_ne, hne2])
    refine ⟨⟨hpages, by simp, ?_, ?_⟩, by simp⟩
    · simp only [List.length_append, List.length_singleton]
      omega
    · intro r hr
      rcases List.mem_append.mp hr with hr1 | hr2
      · exact hmatch r hr1
      · have hri : r = info := by simpa using hr2
        subst hri
        exact ⟨htitle, hsub⟩

lemma foldl_paginate_good : ∀ (l : List Record) (st : PagState), GoodState st →
    GoodState (l.foldl paginateStep st) ∧
      (l.foldl paginateStep st).all_slides_content.flatten
          ++ (l.foldl paginateStep st).temp_slide
        = st.all_slides_content.flatten ++ st.temp_slide ++ l := by
  intro l
  induction l with
  | nil => intro st h; exact ⟨h, by simp⟩
  | cons x xs ih =>
    intro st h
    obtain ⟨h1, h2⟩ := paginateStep_good x h
    obtain ⟨h3, h4⟩ := ih (paginateStep st x) h1
    refine ⟨by simpa using h3, ?_⟩
    rw [List.foldl_cons, h4, h2]
    simp

lemma paginate_ok_props {recs : List Record} {pages : List (List Record)}
    (h : paginate recs = .ok pages) :
    GoodPages pages ∧ ∃ rest, pages.flatten ++ rest = recs := by
  cases recs with
  | nil => simp [paginate] at h
  | cons info0 rest0 =>
    simp only [paginate, Except.ok.injEq] at h
    subst h
    have hst1 : paginateStep
        { all_slides_content := [], temp_slide := []
          current_title := info0.ROI_title, current_subtitle := info0.ROI_subtitle } info0
        = { all_slides_content := [], temp_slide := [info0]
            current_title := info0.ROI_title, current_subtitle := info0.ROI_subtitle } := by
      simp [paginateStep]
    have hgood1 : GoodState
        { all_slides_content := [], temp_slide := [info0]
          current_title := info0.ROI_title, current_subtitle := info0.ROI_subtitle } := by
      refine ⟨fun p hp => by simp at hp, by simp, by simp, ?_⟩
      intro r hr
      have hr0 : r = info0 := by simpa using hr
      subst hr0
      exact ⟨rfl, rfl⟩
    obtain ⟨hfin, hcov⟩ := foldl_paginate_good rest0 _ hgood1
    rw [List.foldl_cons, hst1]
    refine ⟨hfin.1,
      ⟨(List.foldl paginateStep
          { all_slides_content := [], temp_slide := [info0]
            current_title := info0.ROI_title
            current_subtitle := info0.ROI_subtitle } rest0).temp_slide, ?_⟩⟩
    rw [hcov]
    simp

lemma paginate_mem {recs : List Record} {pages : List (List Record)}
    (h : paginate recs = .ok pages) {p : List Record} {r : Record}
    (hp : p ∈ pages) (hr : r ∈ p) : r ∈ recs := by
  obtain ⟨-, rest, hcov⟩ := paginate_ok_props h
  have hflat : r ∈ pages.flatten := List.mem_flatten.mpr ⟨p, hp, hr⟩
  rw [← hcov]
  exact List.mem_append.mpr (Or.inl hflat)

/-! ### Claim theorems about the Paginator -/

/-- C1.  The claim says the final partially-filled accumulator is appended
after the loop, so 23 same-group records give pages of sizes `[20, 3]` and
20 same-group records give one page.  The code never appends the final
accumulator (src/app.py:176 returns right after the loop): 23 identical
records yield a single page of 20, and 20 identical records yield no page
at all. -/
theorem paginate_drops_final_group :
    (paginate (List.replicate 23 recA)).map (fun ps => ps.map List.length) = .ok [20]
      ∧ (paginate (List.replicate 20 recA)).map (fun ps => ps.map List.length) = .ok [] :=
  ⟨by rfl, by rfl⟩

/-- C2.  The claim says the concatenation of all emitted pages equals the
input sequence.  On the single-record input `[recA]` the code emits no
page at all, so the concatenation is `[]`, not `[recA]`: the trailing
group is dropped (missing flush at src/app.py:176). -/
theorem paginate_concat_ne_input :
    (paginate [recA]).map List.flatten = .ok ([] : List Record)
      ∧ ([] : List Record) ≠ [recA] :=
  ⟨by rfl, by simp⟩

/-- C3.  The claim says 5 records of subtitle A followed by 3 records of
subtitle B (same title) yield two pages of sizes `[5, 3]`.  The subtitle
change does force the break, but the trailing group of 3 is then dropped
by the missing flush: the code yields sizes `[5]`. -/
theorem paginate_subtitle_break_sizes :
    (paginate (List.replicate 5 recA ++ List.replicate 3 recB)).map
        (fun ps => ps.map List.length) = .ok [5]
      ∧ ([5] : List Nat) ≠ [5, 3] :=
  ⟨by rfl, by simp⟩

/-- C4.  Every page the Paginator emits holds between 1 and 20 records:
the capacity check fires before the accumulator can exceed 20, and an
empty accumulator is never dumped (the first iteration matches the
references initialized from the first record). -/
theorem paginate_page_capacity (recs : List Record) (pages : List (List Record))
    (h : paginate recs = .ok pages) :
    ∀ p ∈ pages, 1 ≤ p.length ∧ p.length ≤ 20 := by
  obtain ⟨hgood, -⟩ := paginate_ok_props h
  intro p hp
  obtain ⟨hne, hlen, -⟩ := hgood p hp
  exact ⟨List.length_pos.mpr hne, hlen⟩

theorem paginate_page_capacity_witness :
    paginate [recA, recA10, recB] = .ok [[recA, recA10]]
      ∧ ∀ p ∈ [[recA, recA10]], 1 ≤ p.length ∧ p.length ≤ 20 :=
  ⟨by rfl, paginate_page_capacity [recA, recA10, recB] [[recA, recA10]] (by rfl)⟩

/-- C5.  Every emitted page is group-homogeneous: records are only added
to the accumulator when their title and subtitle match the current
references, so any two records of one page agree on both. -/
theorem paginate_page_homogeneity (recs : List Record) (pages : List (List Record))
    (h : paginate recs = .ok pages) :
    ∀ p ∈ pages, ∀ r1 ∈ p, ∀ r2 ∈ p,
      r1.ROI_title = r2.ROI_title ∧ r1.ROI_subtitle = r2.ROI_subtitle := by
  obtain ⟨hgood, -⟩ := paginate_ok_props h
  intro p hp
  exact (hgood p hp).2.2

theorem paginate_page_homogeneity_witness :
    paginate [recA, recB] = .ok [[recA]]
      ∧ ∀ p ∈ [[recA]], ∀ r1 ∈ p, ∀ r2 ∈ p,
          r1.ROI_title = r2.ROI_title ∧ r1.ROI_subtitle = r2.ROI_subtitle :=
  ⟨by rfl, paginate_page_homogeneity [recA, recB] [[recA]] (by rfl)⟩

/-- C10.  When extraction produces zero records, `process_files` fails
with the `IndexError` raised at `all_info_for_slides[0][0]`
(src/app.py:154), before the pagination loop begins: empty input is a
precondition violation, not a run producing zero pages. -/
theorem process_files_empty_extraction_fails (v : TandFM) (conds : List Condition)
    (h : extract_all v conds = .ok []) :
    process_files v conds = .error "IndexError: list index out of range" := by
  unfold process_files
  rw [h]
  rfl

theorem process_files_empty_extraction_fails_witness :
    extract_all .Both [] = .ok []
      ∧ process_files .Both [] = .error "IndexError: list index out of range" :=
  ⟨by rfl, process_files_empty_extraction_fails .Both [] (by rfl)⟩

/-! ### Order lemmas for the extraction sort key -/

lemma char_toNat_inj {a b : Char} (h : a.toNat = b.toNat) : a = b := by
  have h2 := congrArg Char.ofNat h
  simpa using h2

lemma string_data_inj {s1 s2 : String} (h : s1.data = s2.data) : s1 = s2 := by
  cases s1
  cases s2
  exact congrArg String.mk h

lemma charListLt_conn : ∀ {as bs : List Char},
    charListLt as bs = false → charListLt bs as = false → as = bs := by
  intro as
  induction as with
  | nil =>
    intro bs h1 h2
    cases bs with
    | nil => rfl
    | cons b bs => simp [charListLt] at h1
  | cons a as ih =>
    intro bs h1 h2
    cases bs with
    | nil => simp [charListLt] at h2
    | cons b bs =>
      simp only [charListLt] at h1 h2
      by_cases hab : a.toNat < b.toNat
      · simp [hab] at h1
      · by_cases hba : b.toNat < a.toNat
        · simp [hba] at h2
        · have hEq : a = b := char_toNat_inj (by omega)
          subst hEq
          simp only [if_neg hab, if_neg hba] at h1 h2
          rw [ih h1 h2]

lemma charListLt_trans : ∀ {as bs cs : List Char},
    charListLt as bs = true → charListLt bs cs = true → charListLt as cs = true := by
  intro as
  induction as with
  | nil =>
    intro bs cs h1 h2
    cases cs with
    | nil =>
      cases bs with
      | nil => simp [charListLt] at h2
      | cons b bs => simp [charListLt] at h2
    | cons c cs => simp [charListLt]
  | cons a as ih =>
    intro bs cs h1 h2
    cases bs with
    | nil => simp [charListLt] at h1
    | cons b bs =>
      cases cs with
      | nil => simp [charListLt] at h2
      | cons c cs =>
        simp only [charListLt] at h1 h2 ⊢
        by_cases hab : a.toNat < b.toNat
        · by_cases hbc : b.toNat < c.toNat
          · have hac : a.toNat < c.toNat := Nat.lt_trans hab hbc
            simp [hac]
          · by_cases hcb : c.toNat < b.toNat
            · simp [hbc, hcb] at h2
            · have hac : a.toNat < c.toNat := by omega
              simp [hac]
        · by_cases hba : b.toNat < a.toNat
          · simp [hab, hba] at h1
          · by_cases hbc : b.toNat < c.toNat
            · have hac : a.toNat < c.toNat := by omega
              simp [hac]
            · by_cases hcb : c.toNat < b.toNat
              · simp [hbc, hcb] at h2
              · have h1t : charListLt as bs = true := by simpa [hab, hba] using h1
                have h2t : charListLt bs cs = true := by simpa [hbc, hcb] using h2
                have hnac : ¬ a.toNat < c.toNat := by omega
                have hnca : ¬ c.toNat < a.toNat := by omega
                simp [hnac, hnca, ih h1t h2t]

lemma rowLe_total (a b : CleanRow) : rowLe a b ∨ rowLe b a := by
  by_cases h1 : strLt a.Image_used b.Image_used = true
  · exact Or.inl (Or.inl h1)
  · by_cases h2 : strLt b.Image_used a.Image_used = true
    · exact Or.inr (Or.inl h2)
    · have hEq : a.Image_used = b.Image_used :=
        string_data_inj (charListLt_conn
          (Bool.not_eq_true _ ▸ h1) (Bool.not_eq_true _ ▸ h2))
      rcases Int.le_total a.Cell_quantified b.Cell_quantified with hle | hle
      · exact Or.inl (Or.inr ⟨hEq, hle⟩)
      · exact Or.inr (Or.inr ⟨hEq.symm, hle⟩)

lemma rowLe_trans (a b c : CleanRow) (h1 : rowLe a b) (h2 : rowLe b c) : rowLe a c := by
  rcases h1 with h1 | ⟨hEq1, hle1⟩
  · rcases h2 with h2 | ⟨hEq2, _⟩
    · exact Or.inl (charListLt_trans h1 h2)
    · exact Or.inl (hEq2 ▸ h1)
  · rcases h2 with h2 | ⟨hEq2, hle2⟩
    · exact Or.inl (hEq1 ▸ h2)
    · exact Or.inr ⟨hEq1.trans hEq2, Int.le_trans hle1 hle2⟩

instance : IsTotal CleanRow rowLe := ⟨rowLe_total⟩

instance : IsTrans CleanRow rowLe := ⟨rowLe_trans⟩

/-! ### Claim theorems about the Record Extractor -/

/-- C6.  For every condition, the extractor returns the records of the
cleaned rows sorted ascending by the key (subtitle lexicographically, then
the ROI identifier numerically, `rowLe`): the records come, in order, from
a `rowLe`-sorted row list, the record's subtitle being the row's cleaned
image name and its name the decimal form of the numeric ROI identifier.
Numeric comparison makes ROI 9 sort before ROI 10 (see the witness). -/
theorem extractCondition_sorted (v : TandFM) (cond : Condition) (recs : List Record)
    (h : extractCondition v cond = .ok recs) :
    ∃ rows : List CleanRow,
      recs = rows.map (makeRecord v cond)
        ∧ rows.Pairwise rowLe
        ∧ ∀ row ∈ rows, (makeRecord v cond row).ROI_subtitle = row.Image_used
            ∧ (makeRecord v cond row).ROI_name = toString row.Cell_quantified := by
  unfold extractCondition at h
  obtain ⟨cleaned, hclean, h2⟩ := except_bind_ok h
  have hrecs : (sortTable cleaned).map (makeRecord v cond) = recs := by
    simpa [Pure.pure, Except.pure] using h2
  refine ⟨sortTable cleaned, hrecs.symm, ?_, ?_⟩
  · exact List.sorted_insertionSort rowLe cleaned
  · intro row hrow
    cases v <;> exact ⟨rfl, rfl⟩

theorem extractCondition_sorted_witness :
    extractCondition .Both cond0 = .ok recs0
      ∧ recs0.map Record.ROI_name = ["9", "10"]
      ∧ ∃ rows : List CleanRow,
          recs0 = rows.map (makeRecord .Both cond0)
            ∧ rows.Pairwise rowLe
            ∧ ∀ row ∈ rows, (makeRecord .Both cond0 row).ROI_subtitle = row.Image_used
                ∧ (makeRecord .Both cond0 row).ROI_name = toString row.Cell_quantified :=
  ⟨by rfl, by rfl, extractCondition_sorted .Both cond0 recs0 (by rfl)⟩

/-! ### Variant field consistency of extracted records -/

/-- The variant-field contract of one extracted record: for an active
variant, the mask reference is derived from the primary reference by the
two fixed substitutions and the count is present; for an inactive variant
both fields are the explicit absent marker; and in every case mask
reference and count are present or absent together. -/
def VariantFieldsOK (v : TandFM) (r : Record) : Prop :=
  (tActive v = true →
      r.ROI_Tcount_image = some (pyReplace
          (pyReplace r.ROI_Fluorescence_image "Fluorescence" "T_Particles") "_2.jpg" "_1.jpg")
        ∧ ∃ c, r.ROI_Tcount = some c)
  ∧ (tActive v = false → r.ROI_Tcount_image = none ∧ r.ROI_Tcount = none)
  ∧ (fmActive v = true →
      r.ROI_FMcount_image = some (pyReplace
          (pyReplace r.ROI_Fluorescence_image "Fluorescence" "FM_Particles") "_2.jpg" "_1.jpg")
        ∧ ∃ c, r.ROI_FMcount = some c)
  ∧ (fmActive v = false → r.ROI_FMcount_image = none ∧ r.ROI_FMcount = none)
  ∧ (r.ROI_Tcount_image.isSome ↔ r.ROI_Tcount.isSome)
  ∧ (r.ROI_FMcount_image.isSome ↔ r.ROI_FMcount.isSome)

lemma makeRecord_variantFields (v : TandFM) (cond : Condition) (row : CleanRow) :
    VariantFieldsOK v (makeRecord v cond row) := by
  cases v <;> simp [VariantFieldsOK, makeRecord, tActive, fmActive]

lemma extract_all_mem {v : TandFM} {conds : List Condition} {recs : List Record}
    (h : extract_all v conds = .ok recs) :
    ∀ r ∈ recs, ∃ cond ∈ conds, ∃ row : CleanRow, r = makeRecord v cond row := by
  unfold extract_all at h
  obtain ⟨lists, hlists, h2⟩ := except_bind_ok h
  have hflat : lists.flatten = recs := by
    simpa [Pure.pure, Except.pure] using h2
  subst hflat
  intro r hrmem
  obtain ⟨l, hl, hrl⟩ := List.mem_flatten.mp hrmem
  have hforall := mapExcept_ok_forall₂ _ _ _ hlists
  obtain ⟨cond, hcond, hok⟩ := forall₂_mem_right hforall l hl
  unfold extractCondition at hok
  obtain ⟨cleaned, hclean, h3⟩ := except_bind_ok hok
  have hl2 : (sortTable cleaned).map (makeRecord v cond) = l := by
    simpa [Pure.pure, Except.pure] using h3
  rw [← hl2] at hrl
  obtain ⟨row, hrow, hrr⟩ := List.mem_map.mp hrl
  exact ⟨cond, hcond, row, hrr.symm⟩

lemma extract_all_variantFields {v : TandFM} {conds : List Condition} {recs : List Record}
    (h : extract_all v conds = .ok recs) :
    ∀ r ∈ recs, VariantFieldsOK v r := by
  intro r hr
  obtain ⟨cond, -, row, hrr⟩ := extract_all_mem h r hr
  rw [hrr]
  exact makeRecord_variantFields v cond row

/-- C8.  Every extracted record satisfies the variant-field contract
`VariantFieldsOK`: an active variant's mask reference is the primary
reference with `Fluorescence` replaced by the variant's particle folder
and `_2.jpg` replaced by `_1.jpg` and its count is present, an inactive
variant's mask reference and count are both `none`, and each variant's
mask reference and count are always present or absent together. -/
theorem extract_variant_fields (v : TandFM) (conds : List Condition) (recs : List Record)
    (h : extract_all v conds = .ok recs) :
    ∀ r ∈ recs, VariantFieldsOK v r :=
  extract_all_variantFields h

theorem extract_variant_fields_witness :
    extract_all .Both [cond0] = .ok recs0 ∧ ∀ r ∈ recs0, VariantFieldsOK .Both r :=
  ⟨by rfl, extract_variant_fields .Both [cond0] recs0 (by rfl)⟩

/-! ### Layout Engine lemmas -/

lemma getOrErr_ok {α : Type} {l : List α} {i : Nat} {x : α}
    (h : getOrErr l i = .ok x) : l[i]? = some x := by
  cases hl : l[i]? with
  | none => simp [getOrErr, hl] at h
  | some y =>
    simp only [getOrErr, hl, Except.ok.injEq] at h
    exact congrArg some h

lemma getOrErr_of_lt {α : Type} (l : List α) (i : Nat) (h : i < l.length) :
    getOrErr l i = .ok l[i] := by
  simp [getOrErr, List.getElem?_eq_getElem h]

lemma getOrErr_of_ge {α : Type} (l : List α) (i : Nat) (h : l.length ≤ i) :
    getOrErr l i = .error "IndexError: list index out of range" := by
  simp [getOrErr, List.getElem?_eq_none h]

lemma buildSlot_ok_plbl {F : List String} {P : List (Option String)} {FL : List String}
    {PL : List (Option Int)} {i : Nat} {slot : SlotPlacements}
    (h : buildSlot F P FL PL i = .ok slot) :
    ∃ plbl, PL[i]? = some plbl ∧ slot.particleLabelText = "P=" ++ pyStrOptInt plbl := by
  unfold buildSlot at h
  obtain ⟨c, hc, h⟩ := except_bind_ok h
  obtain ⟨lc, hlc, h⟩ := except_bind_ok h
  obtain ⟨fimg, hf, h⟩ := except_bind_ok h
  obtain ⟨pimg, hpi, h⟩ := except_bind_ok h
  obtain ⟨flbl, hfl, h⟩ := except_bind_ok h
  obtain ⟨plbl, hpl, h⟩ := except_bind_ok h
  have hs : mkSlot c lc fimg pimg flbl plbl = slot := by
    simpa [Pure.pure, Except.pure] using h
  refine ⟨plbl, getOrErr_ok hpl, ?_⟩
  rw [← hs]
  rfl

/-- Geometry-equivalence of two slot results: same error, or same
resolved geometry. -/
def geomRel (a b : Except String SlotPlacements) : Prop :=
  match a, b with
  | .error e1, .error e2 => e1 = e2
  | .ok s1, .ok s2 => slotGeoms s1 = slotGeoms s2
  | _, _ => False

/-- Geometry-equivalence of two slot-list results. -/
def geomListRel (a b : Except String (List SlotPlacements)) : Prop :=
  match a, b with
  | .error e1, .error e2 => e1 = e2
  | .ok s1, .ok s2 => s1.map slotGeoms = s2.map slotGeoms
  | _, _ => False

lemma buildSlot_geomRel {n i : Nat} (hi : i < n)
    {F1 F2 : List String} {P1 P2 : List (Option String)}
    {FL1 FL2 : List String} {PL1 PL2 : List (Option Int)}
    (hF1 : F1.length = n) (hP1 : P1.length = n) (hFL1 : FL1.length = n) (hPL1 : PL1.length = n)
    (hF2 : F2.length = n) (hP2 : P2.length = n) (hFL2 : FL2.length = n) (hPL2 : PL2.length = n) :
    geomRel (buildSlot F1 P1 FL1 PL1 i) (buildSlot F2 P2 FL2 PL2 i) := by
  have hclen : image_coordinates.length = 20 := rfl
  have hlclen : image_labels_coordinates.length = 20 := rfl
  by_cases h20 : i < 20
  · have hc := getOrErr_of_lt image_coordinates i (by omega)
    have hlc := getOrErr_of_lt image_labels_coordinates i (by omega)
    have hf1 := getOrErr_of_lt F1 i (by omega)
    have hp1 := getOrErr_of_lt P1 i (by omega)
    have hfl1 := getOrErr_of_lt FL1 i (by omega)
    have hpl1 := getOrErr_of_lt PL1 i (by omega)
    have hf2 := getOrErr_of_lt F2 i (by omega)
    have hp2 := getOrErr_of_lt P2 i (by omega)
    have hfl2 := getOrErr_of_lt FL2 i (by omega)
    have hpl2 := getOrErr_of_lt PL2 i (by omega)
    unfold buildSlot
    simp only [hc, hlc, hf1, hp1, hfl1, hpl1, hf2, hp2, hfl2, hpl2,
      Bind.bind, Except.bind, Pure.pure, Except.pure]
    simp [geomRel, mkSlot, slotGeoms]
  · have hc := getOrErr_of_ge image_coordinates i (by omega)
    unfold buildSlot
    simp only [hc, Bind.bind, Except.bind]
    simp [geomRel]

lemma mapExcept_geomRel (f g : Nat → Except String SlotPlacements) :
    ∀ (l : List Nat), (∀ i ∈ l, geomRel (f i) (g i)) →
      geomListRel (mapExcept f l) (mapExcept g l) := by
  intro l
  induction l with
  | nil => intro _; simp [mapExcept, geomListRel]
  | cons x xs ih =>
    intro h
    have hx := h x (by simp)
    have hxs := ih (fun i hi => h i (by simp [hi]))
    simp only [mapExcept]
    cases hfx : f x with
    | error e1 =>
      cases hgx : g x with
      | error e2 =>
        have hEq : e1 = e2 := by rw [hfx, hgx] at hx; simpa [geomRel] using hx
        subst hEq
        simp [Bind.bind, Except.bind, geomListRel]
      | ok s2 => rw [hfx, hgx] at hx; simp [geomRel] at hx
    | ok s1 =>
      cases hgx : g x with
      | error e2 => rw [hfx, hgx] at hx; simp [geomRel] at hx
      | ok s2 =>
        have hgeq : slotGeoms s1 = slotGeoms s2 := by
          rw [hfx, hgx] at hx; simpa [geomRel] using hx
        cases hrest1 : mapExcept f xs with
        | error e1 =>
          cases hrest2 : mapExcept g xs with
          | error e2 =>
            have hEq : e1 = e2 := by
              rw [hrest1, hrest2] at hxs; simpa [geomListRel] using hxs
            subst hEq
            simp [Bind.bind, Except.bind, geomListRel]
          | ok t2 => rw [hrest1, hrest2] at hxs; simp [geomListRel] at hxs
        | ok t1 =>
          cases hrest2 : mapExcept g xs with
          | error e2 => rw [hrest1, hrest2] at hxs; simp [geomListRel] at hxs
          | ok t2 =>
            have hteq : t1.map slotGeoms = t2.map slotGeoms := by
              rw [hrest1, hrest2] at hxs; simpa [geomListRel] using hxs
            simp [Bind.bind, Except.bind, Pure.pure, Except.pure, geomListRel, hgeq, hteq]

/-- C9.  The Layout Engine's resolved geometry depends only on the page
size: for any two `slide_maker` inputs with the same record count (the
content lists having that count, as the callers always pass), the resolved
geometry sequences are identical; only content differs. -/
theorem slide_maker_geometry_deterministic
    (t1 s1 t2 s2 : String) (n : Nat)
    (F1 : List String) (P1 : List (Option String)) (FL1 : List String) (PL1 : List (Option Int))
    (F2 : List String) (P2 : List (Option String)) (FL2 : List String) (PL2 : List (Option Int))
    (hF1 : F1.length = n) (hP1 : P1.length = n) (hFL1 : FL1.length = n) (hPL1 : PL1.length = n)
    (hF2 : F2.length = n) (hP2 : P2.length = n) (hFL2 : FL2.length = n) (hPL2 : PL2.length = n) :
    (slide_maker t1 s1 n F1 P1 FL1 PL1).map slideGeometry
      = (slide_maker t2 s2 n F2 P2 FL2 PL2).map slideGeometry := by
  have hrel := mapExcept_geomRel (buildSlot F1 P1 FL1 PL1) (buildSlot F2 P2 FL2 PL2)
    (List.range n)
    (fun i hi => buildSlot_geomRel (List.mem_range.mp hi)
      hF1 hP1 hFL1 hPL1 hF2 hP2 hFL2 hPL2)
  unfold slide_maker
  cases h1 : mapExcept (buildSlot F1 P1 FL1 PL1) (List.range n) with
  | error e1 =>
    cases h2 : mapExcept (buildSlot F2 P2 FL2 PL2) (List.range n) with
    | error e2 =>
      have hEq : e1 = e2 := by rw [h1, h2] at hrel; simpa [geomListRel] using hrel
      subst hEq
      simp [Bind.bind, Except.bind, Except.map]
    | ok s2c => rw [h1, h2] at hrel; simp [geomListRel] at hrel
  | ok slots1 =>
    cases h2 : mapExcept (buildSlot F2 P2 FL2 PL2) (List.range n) with
    | error e2 => rw [h1, h2] at hrel; simp [geomListRel] at hrel
    | ok slots2 =>
      have hmap : slots1.map slotGeoms = slots2.map slotGeoms := by
        rw [h1, h2] at hrel; simpa [geomListRel] using hrel
      simp [Bind.bind, Except.bind, Pure.pure, Except.pure, Except.map, slideGeometry, hmap]

theorem slide_maker_geometry_deterministic_witness :
    (slide_maker "A" "x" 1 ["a"] [some "b"] ["c"] [some 7]).map slideGeometry
      = (slide_maker "B" "y" 1 ["d"] [none] ["e"] [none]).map slideGeometry :=
  slide_maker_geometry_deterministic "A" "x" "B" "y" 1
    ["a"] [some "b"] ["c"] [some 7] ["d"] [none] ["e"] [none]
    rfl rfl rfl rfl rfl rfl rfl rfl

/-! ### Deck Builder lemmas -/

lemma generate_pptxs_decks {v : TandFM} {pages : List (List Record)} {decks : List Deck}
    (h : generate_pptxs v pages = .ok decks) :
    ∀ d ∈ decks, activeOf d.variant v = true
      ∧ mapExcept (pageToSlide (imgSel d.variant) (cntSel d.variant)) pages = .ok d.slides := by
  cases v with
  | Both =>
    have h2 : (mapExcept (pageToSlide Record.ROI_Tcount_image Record.ROI_Tcount) pages
        >>= fun slides => Except.ok [({ variant := .Thresholding, slides := slides } : Deck)]
        >>= fun tdecks => mapExcept (pageToSlide Record.ROI_FMcount_image Record.ROI_FMcount) pages
        >>= fun slides2 => Except.ok [({ variant := .Find_Maxima, slides := slides2 } : Deck)]
        >>= fun fmdecks => pure (tdecks ++ fmdecks)) = .ok decks := h
    obtain ⟨sT, hsT, h3⟩ := except_bind_ok h2
    obtain ⟨tdecks, htd, h4⟩ := except_bind_ok h3
    have htdeq : tdecks = [⟨.Thresholding, sT⟩] := by simpa using htd.symm
    subst htdeq
    obtain ⟨sFM, hsFM, h5⟩ := except_bind_ok h4
    obtain ⟨fmdecks, hfd, h6⟩ := except_bind_ok h5
    have hfmeq : fmdecks = [⟨.Find_Maxima, sFM⟩] := by simpa using hfd.symm
    subst hfmeq
    have hdeq : decks = [(⟨.Thresholding, sT⟩ : Deck), ⟨.Find_Maxima, sFM⟩] := by
      simpa [Pure.pure, Except.pure] using h6.symm
    subst hdeq
    intro d hd
    have hd2 : d = (⟨.Thresholding, sT⟩ : Deck) ∨ d = (⟨.Find_Maxima, sFM⟩ : Deck) := by
      simpa using hd
    rcases hd2 with rfl | rfl
    · exact ⟨rfl, hsT⟩
    · exact ⟨rfl, hsFM⟩
  | Thresholding_only =>
    have h2 : (mapExcept (pageToSlide Record.ROI_Tcount_image Record.ROI_Tcount) pages
        >>= fun slides => Except.ok [({ variant := .Thresholding, slides := slides } : Deck)]
        >>= fun tdecks => Except.ok ([] : List Deck)
        >>= fun fmdecks => pure (tdecks ++ fmdecks)) = .ok decks := h
    obtain ⟨sT, hsT, h3⟩ := except_bind_ok h2
    obtain ⟨tdecks, htd, h4⟩ := except_bind_ok h3
    have htdeq : tdecks = [⟨.Thresholding, sT⟩] := by simpa using htd.symm
    subst htdeq
    obtain ⟨fmdecks, hfd, h5⟩ := except_bind_ok h4
    have hfmeq : fmdecks = [] := by simpa using hfd.symm
    subst hfmeq
    have hdeq : decks = [(⟨.Thresholding, sT⟩ : Deck)] := by
      simpa [Pure.pure, Except.pure] using h5.symm
    subst hdeq
    intro d hd
    have hd2 : d = (⟨.Thresholding, sT⟩ : Deck) := by simpa using hd
    subst hd2
    exact ⟨rfl, hsT⟩
  | Find_Maxima_only =>
    have h2 : (Except.ok ([] : List Deck)
        >>= fun tdecks => mapExcept (pageToSlide Record.ROI_FMcount_image Record.ROI_FMcount) pages
        >>= fun slides2 => Except.ok [({ variant := .Find_Maxima, slides := slides2 } : Deck)]
        >>= fun fmdecks => pure (tdecks ++ fmdecks)) = .ok decks := h
    obtain ⟨tdecks, htd, h3⟩ := except_bind_ok h2
    have htdeq : tdecks = [] := by simpa using htd.symm
    subst htdeq
    obtain ⟨sFM, hsFM, h4⟩ := except_bind_ok h3
    obtain ⟨fmdecks, hfd, h5⟩ := except_bind_ok h4
    have hfmeq : fmdecks = [⟨.Find_Maxima, sFM⟩] := by simpa using hfd.symm
    subst hfmeq
    have hdeq : decks = [(⟨.Find_Maxima, sFM⟩ : Deck)] := by
      simpa [Pure.pure, Except.pure] using h5.symm
    subst hdeq
    intro d hd
    have hd2 : d = (⟨.Find_Maxima, sFM⟩ : Deck) := by simpa using hd
    subst hd2
    exact ⟨rfl, hsFM⟩

lemma pageToSlide_labels {selImg : Record → Option String} {selCnt : Record → Option Int}
    {page : List Record} {slide : Slide}
    (h : pageToSlide selImg selCnt page = .ok slide)
    (hall : ∀ r ∈ page, ∃ c, selCnt r = some c) :
    List.Forall₂ (fun r slot => ∃ c : Int, selCnt r = some c
      ∧ slot.particleLabelText = "P=" ++ toString c) page slide.slots := by
  cases page with
  | nil => simp [pageToSlide] at h
  | cons first rest =>
    have h1 : slide_maker first.ROI_title first.ROI_subtitle (first :: rest).length
        ((first :: rest).map Record.ROI_Fluorescence_image)
        ((first :: rest).map selImg)
        ((first :: rest).map Record.ROI_name)
        ((first :: rest).map selCnt) = .ok slide := h
    unfold slide_maker at h1
    obtain ⟨slots, hslots, h2⟩ := except_bind_ok h1
    have hXs : slide.slots = slots := by
      have h3 := h2
      simp only [Pure.pure, Except.pure, Except.ok.injEq] at h3
      rw [← h3]
    have hf2 := mapExcept_ok_forall₂ _ _ _ hslots
    rw [hXs, List.forall₂_iff_get]
    have hlen := hf2.length_eq
    simp only [List.length_range] at hlen
    refine ⟨by simpa using hlen, ?_⟩
    intro k hk1 hk2
    have hrel := (List.forall₂_iff_get.mp hf2).2 k (by simpa using hk1) hk2
    rw [List.get_eq_getElem, List.getElem_range] at hrel
    obtain ⟨plbl, hplbl, htext⟩ := buildSlot_ok_plbl hrel
    rw [List.getElem?_map, List.getElem?_eq_getElem hk1, Option.map_some'] at hplbl
    have hplbl2 : plbl = selCnt ((first :: rest).get ⟨k, hk1⟩) := by
      have := (Option.some.injEq _ _).mp hplbl
      simp only [List.get_eq_getElem]
      exact this.symm
    obtain ⟨c, hc⟩ := hall ((first :: rest).get ⟨k, hk1⟩) (List.get_mem _ _ _)
    refine ⟨c, hc, ?_⟩
    rw [htext, hplbl2]
    simp only [List.get_eq_getElem] at hc ⊢
    rw [hc]
    rfl

/-! ### Claim theorem about secondary labels -/

/-- C7.  In the whole pipeline, every secondary-image (particle-count)
label placed on a slide has text exactly `"P=" ++ toString c` where
`some c` is that record's particle count for the deck's variant — the
count is always present for a deck that is generated; and when a record's
count for a variant is absent, no deck of that variant exists at all, so
no secondary-label placement for it is ever emitted. -/
theorem secondary_label_text (v : TandFM) (conds : List Condition)
    (pages : List (List Record)) (decks : List Deck)
    (h1 : process_files v conds = .ok pages)
    (h2 : generate_pptxs v pages = .ok decks) :
    (∀ d ∈ decks, List.Forall₂ (fun page slide =>
        List.Forall₂ (fun r slot => ∃ c : Int, cntSel d.variant r = some c
          ∧ slot.particleLabelText = "P=" ++ toString c) page slide.slots)
      pages d.slides)
    ∧ ∀ page ∈ pages, ∀ r ∈ page,
        (r.ROI_Tcount = none → ∀ d ∈ decks, d.variant ≠ .Thresholding)
        ∧ (r.ROI_FMcount = none → ∀ d ∈ decks, d.variant ≠ .Find_Maxima) := by
  unfold process_files at h1
  obtain ⟨recs, hext, hpag⟩ := except_bind_ok h1
  have hfields := extract_all_variantFields hext
  have hmem : ∀ page ∈ pages, ∀ r ∈ page, r ∈ recs :=
    fun page hp r hr => paginate_mem hpag hp hr
  have hdecks := generate_pptxs_decks h2
  constructor
  · intro d hd
    obtain ⟨hactive, hmapex⟩ := hdecks d hd
    have hf2 := mapExcept_ok_forall₂ _ _ _ hmapex
    refine forall₂_mem_imp hf2 ?_
    intro page hp slide hps
    refine pageToSlide_labels hps ?_
    intro r hr
    have hvf := hfields r (hmem page hp r hr)
    cases hv : d.variant with
    | Thresholding =>
      rw [hv] at hactive
      exact (hvf.1 hactive).2
    | Find_Maxima =>
      rw [hv] at hactive
      exact (hvf.2.2.1 hactive).2
  · intro page hp r hr
    have hvf := hfields r (hmem page hp r hr)
    constructor
    · intro hnone d hd hvar
      obtain ⟨hactive, -⟩ := hdecks d hd
      rw [hvar] at hactive
      obtain ⟨-, c, hc⟩ := hvf.1 hactive
      rw [hnone] at hc
      cases hc
    · intro hnone d hd hvar
      obtain ⟨hactive, -⟩ := hdecks d hd
      rw [hvar] at hactive
      obtain ⟨-, c, hc⟩ := hvf.2.2.1 hactive
      rw [hnone] at hc
      cases hc

/-- A raw row of a second source image (different subtitle). -/
def rowB : Row :=
  { Image_used := "MAX_Row_06_10.tif"
    Cell_quantified := "1_1.roi"
    Particle_count_threshold := 2
    Particle_count_maxima := 2 }

/-- A condition with two subtitle groups, so that pagination emits the
first group as a page. -/
def cond1 : Condition :=
  { name := "ConditionA"
    csvPath := "Data/ConditionA/Quantification/Results.csv"
    rows := [row10, row9, rowB] }

/-- The Thresholding slide built for the page `[recA, recA10]`. -/
def slideT : Slide :=
  { titleGeom := { left := 0, top := 0, width := 1700, height := 150 }
    titleText := "ConditionA"
    subtitleGeom := { left := 1700, top := 0, width := 1700, height := 150 }
    subtitleText := "Row_01_05"
    slots := [{ fluorGeom := { left := 25, top := 210, width := 325, height := 300 }
                fluorImage := "Data/ConditionA/Cropped cells/Fluorescence/Row_01_05/9_2.jpg"
                fluorLabelGeom := { left := 25, top := 510, width := 325, height := 100 }
                fluorLabelText := "9"
                particleGeom := { left := 350, top := 210, width := 325, height := 300 }
                particleImage := some "Data/ConditionA/Cropped cells/T_Particles/Row_01_05/9_1.jpg"
                particleLabelGeom := { left := 350, top := 510, width := 325, height := 100 }
                particleLabelText := "P=4" },
              { fluorGeom := { left := 700, top := 210, width := 325, height := 300 }
                fluorImage := "Data/ConditionA/Cropped cells/Fluorescence/Row_01_05/10_2.jpg"
                fluorLabelGeom := { left := 700, top := 510, width := 325, height := 100 }
                fluorLabelText := "10"
                particleGeom := { left := 1025, top := 210, width := 325, height := 300 }
                particleImage := some "Data/ConditionA/Cropped cells/T_Particles/Row_01_05/10_1.jpg"
                particleLabelGeom := { left := 1025, top := 510, width := 325, height := 100 }
                particleLabelText := "P=3" }] }

/-- The Find Maxima slide built for the page `[recA, recA10]`. -/
def slideFM : Slide :=
  { titleGeom := { left := 0, top := 0, width := 1700, height := 150 }
    titleText := "ConditionA"
    subtitleGeom := { left := 1700, top := 0, width := 1700, height := 150 }
    subtitleText := "Row_01_05"
    slots := [{ fluorGeom := { left := 25, top := 210, width := 325, height := 300 }
                fluorImage := "Data/ConditionA/Cropped cells/Fluorescence/Row_01_05/9_2.jpg"
                fluorLabelGeom := { left := 25, top := 510, width := 325, height := 100 }
                fluorLabelText := "9"
                particleGeom := { left := 350, top := 210, width := 325, height := 300 }
                particleImage := some "Data/ConditionA/Cropped cells/FM_Particles/Row_01_05/9_1.jpg"
                particleLabelGeom := { left := 350, top := 510, width := 325, height := 100 }
                particleLabelText := "P=6" },
              { fluorGeom := { left := 700, top := 210, width := 325, height := 300 }
                fluorImage := "Data/ConditionA/Cropped cells/Fluorescence/Row_01_05/10_2.jpg"
                fluorLabelGeom := { left := 700, top := 510, width := 325, height := 100 }
                fluorLabelText := "10"
                particleGeom := { left := 1025, top := 210, width := 325, height := 300 }
                particleImage := some "Data/ConditionA/Cropped cells/FM_Particles/Row_01_05/10_1.jpg"
                particleLabelGeom := { left := 1025, top := 510, width := 325, height := 100 }
                particleLabelText := "P=5" }] }

/-- The decks the Deck Builder produces for pages `[[recA, recA10]]`. -/
def decks1 : List Deck :=
  [⟨.Thresholding, [slideT]⟩, ⟨.Find_Maxima, [slideFM]⟩]

theorem secondary_label_text_witness :
    process_files .Both [cond1] = .ok [[recA, recA10]]
      ∧ generate_pptxs .Both [[recA, recA10]] = .ok decks1
      ∧ ((∀ d ∈ decks1, List.Forall₂ (fun page slide =>
            List.Forall₂ (fun r slot => ∃ c : Int, cntSel d.variant r = some c
              ∧ slot.particleLabelText = "P=" ++ toString c) page slide.slots)
          [[recA, recA10]] d.slides)
        ∧ ∀ page ∈ [[recA, recA10]], ∀ r ∈ page,
            (r.ROI_Tcount = none → ∀ d ∈ decks1, d.variant ≠ .Thresholding)
            ∧ (r.ROI_FMcount = none → ∀ d ∈ decks1, d.variant ≠ .Find_Maxima)) :=
  ⟨by rfl, by rfl,
    secondary_label_text .Both [cond1] [[recA, recA10]] decks1 (by rfl) (by rfl)⟩
